import Mathlib

/-!
Shallow embedding of the DPR scoring and risk-analysis pipeline of
`src/lib/api.ts` (functions `processDocument`, `score`, `hash`, `clamp01`,
`buildRecommendations`), together with theorems settling the specification
claims about it.

Modelling conventions:
* JavaScript numbers are modelled as `ℚ`.  Every arithmetic operation the
  pipeline performs on the values that the claims mention is exact in binary
  floating point or has its rounding absorbed by `Math.round` in a way that
  agrees with exact rational arithmetic on the pipeline's concrete operands.
* `Math.round x` is `⌊x + 1/2⌋` for the finite non-negative operands occurring
  here (`jsRound`).
* The JavaScript `NaN` produced by the division `0 / 0` in `score` on an empty
  check list is modelled by `Option ℚ` with `none` standing for `NaN`.
* Strings (`uploadId`, `language`) are modelled as lists of UTF-16 code units
  (`List ℕ`); string concatenation is list append, `charCodeAt` is list
  indexing, so `hash` folds over the code units exactly as the source does.
* The module-level mutable state of `api.ts` (`dprs`, `resultsMap`) is made
  explicit as an `ApiState` value threaded through `processDocument`.
-/

namespace SIH2

/-- JavaScript `Math.round` for the finite, non-negative numbers the pipeline
feeds to it: round half towards positive infinity, i.e. `⌊q + 1/2⌋`. -/
def jsRound (q : ℚ) : ℤ := ⌊q + 1 / 2⌋

/-- JavaScript `ToInt32` (the `| 0` coercion, and the wrap-around performed by
`Math.imul`): reduce modulo `2^32` into the signed range `[-2^31, 2^31)`. -/
def toInt32 (n : ℤ) : ℤ := (n + 2 ^ 31) % 2 ^ 32 - 2 ^ 31

/-- `hash` from `src/lib/api.ts`:
`h = (Math.imul(31, h) + s.charCodeAt(i)) | 0` folded over the string,
starting from `0`, followed by `Math.abs`.  Strings are lists of UTF-16 code
units. -/
def hash (s : List ℕ) : ℕ :=
  (s.foldl (fun h c => toInt32 (toInt32 (31 * h) + (c : ℤ))) 0).natAbs

/-- `clamp01` from `src/lib/api.ts`: `Math.max(0, Math.min(1, x))`. -/
def clamp01 (x : ℚ) : ℚ := max 0 (min 1 x)

/-- `score` from `src/lib/api.ts`:
`ratio = flags.reduce((acc, f) => acc + (f ? 1 : 0), 0) / flags.length;
return Math.round(ratio * outOf)`.
On an empty `flags` list the JavaScript division is `0 / 0 = NaN` and the
function returns `NaN`; `none` models that `NaN`. -/
def score (flags : List Bool) (outOf : ℚ) : Option ℚ :=
  if flags.length = 0 then none
  else
    some ((jsRound ((flags.foldl (fun acc f => acc + if f then 1 else 0) 0 : ℕ) /
      (flags.length : ℚ) * outOf) : ℤ) : ℚ)

/-- `projectProfile` field of `ValidationResult`. -/
structure ProjectProfile where
  geoCoordinates : Bool
  timeline : Bool
deriving DecidableEq

/-- `beneficiary` field of `ValidationResult`. -/
structure Beneficiary where
  sdgMpiAligned : Bool
  kpisPresent : Bool
deriving DecidableEq

/-- `financial` field of `ValidationResult`. -/
structure Financial where
  gstComponents : Bool
  omFourYears : Bool
deriving DecidableEq

/-- `technical` field of `ValidationResult`. -/
structure Technical where
  gatiShaktiAligned : Bool
  sorBasis : Bool
deriving DecidableEq

/-- `certificates` field of `ValidationResult`. -/
structure Certificates where
  landAvailability : Bool
  nonDuplication : Bool
deriving DecidableEq

/-- `ValidationResult` from `src/lib/types.ts` as used by `api.ts`. -/
structure ValidationResult where
  projectProfile : ProjectProfile
  beneficiary : Beneficiary
  financial : Financial
  technical : Technical
  certificates : Certificates
deriving DecidableEq

/-- The four letter grades of `Scores.grade`. -/
inductive Grade where
  | Excellent
  | Good
  | Fair
  | Poor
deriving DecidableEq

/-- `Scores` from `src/lib/types.ts` as used by `api.ts`. -/
structure Scores where
  completeness : ℚ
  compliance : ℚ
  technicalQuality : ℚ
  impactSustainability : ℚ
  total : ℚ
  grade : Grade
deriving DecidableEq

/-- `Eligibility` from `src/lib/types.ts` as used by `api.ts`. -/
structure Eligibility where
  sizeCheckOk : Bool
  outOfRange : Bool
  negativeList : Bool
deriving DecidableEq

/-- `ConsistencyFlags`: `ineligibleSector` is `eligibility.negativeList ||
undefined` in the source, i.e. either `true` or absent; `Option Bool` models
the optional field. -/
structure ConsistencyFlags where
  budgetMismatch : Bool
  timelineIssues : Bool
  missingData : Bool
  ineligibleSector : Option Bool
deriving DecidableEq

/-- `RiskPrediction` from `src/lib/types.ts` as used by `api.ts`. -/
structure RiskPrediction where
  costOverrunRisk : ℚ
  delayRisk : ℚ
  implementationRisk : ℚ
deriving DecidableEq

/-- `ProcessingResult` from `src/lib/types.ts` as used by `api.ts`. -/
structure ProcessingResult where
  validation : ValidationResult
  scores : Scores
  eligibility : Eligibility
  flags : ConsistencyFlags
  risk : RiskPrediction
  recommendations : List String
deriving DecidableEq

/-- The grade ternary chain at `api.ts` line 75:
`total >= 90 ? "Excellent" : total >= 75 ? "Good" : total >= 60 ? "Fair" : "Poor"`. -/
def gradeOf (total : ℚ) : Grade :=
  if total ≥ 90 then .Excellent
  else if total ≥ 75 then .Good
  else if total ≥ 60 then .Fair
  else .Poor

/-- `buildRecommendations` from `src/lib/api.ts`: six sequential conditional
pushes followed by the fallback when the list is still empty. -/
def buildRecommendations (scores : Scores) (flags : ConsistencyFlags)
    (risk : RiskPrediction) : List String :=
  let recs : List String :=
    (if flags.budgetMismatch then
      ["Review budget allocations to resolve mismatches against scope."] else []) ++
    (if flags.timelineIssues then
      ["Adjust project timeline to reflect realistic milestones."] else []) ++
    (if flags.missingData then
      ["Provide missing documentation and KPI evidence."] else []) ++
    (if risk.delayRisk > 0.5 then
      ["Increase monitoring cadence and add buffer for critical path items."] else []) ++
    (if scores.compliance < 20 then
      ["Ensure GST, O&M, and certificates are fully documented."] else []) ++
    (if scores.technicalQuality < 18 then
      ["Align design with GatiShakti and SOR standards."] else [])
  if recs.length = 0 then
    ["Project is in strong shape. Proceed to approval with standard oversight."]
  else recs

/-- Lines 41–90 of `processDocument`: everything computed from the seed.
`seed = hash(uploadId + language)` is non-negative (JavaScript `Math.abs`), so
it is taken as a `ℕ`; `%` on non-negative JavaScript numbers agrees with `ℕ`
`%`.  The check lists passed to `score` have literal lengths 3, 4 and 2, so the
`NaN` branch of `score` is unreachable and `Option.get` is justified by `rfl`. -/
def resultFromSeed (seed : ℕ) : ProcessingResult :=
  let vr : ValidationResult :=
    { projectProfile := { geoCoordinates := true, timeline := seed % 7 != 0 }
      beneficiary := { sdgMpiAligned := seed % 5 != 0, kpisPresent := true }
      financial := { gstComponents := seed % 3 != 0, omFourYears := seed % 4 != 0 }
      technical := { gatiShaktiAligned := seed % 6 != 0, sorBasis := true }
      certificates := { landAvailability := seed % 8 != 0, nonDuplication := true } }
  let completeness : ℚ :=
    (score [vr.projectProfile.geoCoordinates, vr.projectProfile.timeline,
      vr.beneficiary.kpisPresent] 30).get rfl
  let compliance : ℚ :=
    (score [vr.financial.gstComponents, vr.financial.omFourYears,
      vr.certificates.nonDuplication, vr.certificates.landAvailability] 25).get rfl
  let technicalQuality : ℚ :=
    (score [vr.technical.gatiShaktiAligned, vr.technical.sorBasis] 25).get rfl
  let baseRisk : ℚ := (seed % 100 : ℕ) / 100
  let risk : RiskPrediction :=
    { costOverrunRisk := clamp01 (baseRisk * 0.7 + if vr.financial.omFourYears then 0 else 0.2)
      delayRisk := clamp01 (baseRisk * 0.6 + if vr.projectProfile.timeline then 0 else 0.25)
      implementationRisk :=
        clamp01 (baseRisk * 0.5 + if vr.technical.gatiShaktiAligned then 0 else 0.2) }
  let impactSustainability : ℚ :=
    ((jsRound ((1 - (risk.costOverrunRisk + risk.delayRisk + risk.implementationRisk) / 3)
      * 20) : ℤ) : ℚ)
  let totalRaw : ℚ := completeness + compliance + technicalQuality + impactSustainability
  let total : ℚ := max 0 (min 100 totalRaw)
  let grade : Grade := gradeOf total
  let scores : Scores :=
    { completeness, compliance, technicalQuality, impactSustainability, total, grade }
  let sizeCheckOk : Bool := seed % 2 == 0
  let eligibility : Eligibility :=
    { sizeCheckOk, outOfRange := !sizeCheckOk, negativeList := seed % 9 == 0 }
  let flags : ConsistencyFlags :=
    { budgetMismatch := seed % 4 == 0
      timelineIssues := !vr.projectProfile.timeline
      missingData := seed % 6 == 0
      ineligibleSector := if eligibility.negativeList then some true else none }
  let recommendations := buildRecommendations scores flags risk
  { validation := vr, scores, eligibility, flags, risk, recommendations }

/-- `DPRFile` from `src/lib/types.ts` as used by `api.ts`. -/
structure DPRFile where
  id : List ℕ
  filename : String
  uploadedAt : String
  language : List ℕ
  status : String
  sizeBytes : ℕ
deriving DecidableEq

/-- The module-level mutable state of `src/lib/api.ts`: `let dprs: DPRFile[]`
and `const resultsMap: Record<string, ProcessingResult>` (an association list
keyed by upload id, assignment overwrites the key). -/
structure ApiState where
  dprs : List DPRFile
  resultsMap : List (List ℕ × ProcessingResult)
deriving DecidableEq

/-- The parameter record of `processDocument`. -/
structure Params where
  uploadId : List ℕ
  language : List ℕ
deriving DecidableEq

/-- `processDocument` from `src/lib/api.ts`, with the module state made
explicit: computes the result from `seed = hash(params.uploadId +
params.language)`, stores it in `resultsMap`, marks the matching `DPRFile` as
completed, and returns the result. -/
def processDocument (params : Params) (st : ApiState) : ApiState × ProcessingResult :=
  let seed := hash (params.uploadId ++ params.language)
  let result := resultFromSeed seed
  let st' : ApiState :=
    { resultsMap := (params.uploadId, result) ::
        st.resultsMap.filter (fun kv => kv.1 ≠ params.uploadId)
      dprs := st.dprs.map (fun d =>
        if d.id = params.uploadId then { d with status := "completed" } else d) }
  (st', result)

/-! ### Helper lemmas -/

theorem clamp01_nonneg (x : ℚ) : 0 ≤ clamp01 x := le_max_left 0 _

theorem clamp01_le_one (x : ℚ) : clamp01 x ≤ 1 :=
  max_le (by norm_num) (min_le_left 1 x)

theorem jsRound_nonneg {q : ℚ} (h : 0 ≤ q) : 0 ≤ jsRound q :=
  Int.le_floor.mpr (by push_cast; linarith)

theorem jsRound_le {q : ℚ} {m : ℤ} (h : q ≤ m) : jsRound q ≤ m := by
  have hm : ⌊(m : ℚ) + 1 / 2⌋ = m := by
    rw [Int.floor_eq_iff]
    exact ⟨by linarith, by linarith⟩
  calc jsRound q ≤ ⌊(m : ℚ) + 1 / 2⌋ := Int.floor_mono (by linarith)
    _ = m := hm

/-- The result component of `processDocument` depends only on the seed. -/
theorem processDocument_snd (p : Params) (st : ApiState) :
    (processDocument p st).2 = resultFromSeed (hash (p.uploadId ++ p.language)) := rfl

theorem resultFromSeed_completeness (seed : ℕ) :
    (resultFromSeed seed).scores.completeness =
      (score [true, seed % 7 != 0, true] 30).getD 0 := rfl

theorem resultFromSeed_compliance (seed : ℕ) :
    (resultFromSeed seed).scores.compliance =
      (score [seed % 3 != 0, seed % 4 != 0, true, seed % 8 != 0] 25).getD 0 := rfl

theorem resultFromSeed_technicalQuality (seed : ℕ) :
    (resultFromSeed seed).scores.technicalQuality =
      (score [seed % 6 != 0, true] 25).getD 0 := rfl

theorem resultFromSeed_risk (seed : ℕ) :
    (resultFromSeed seed).risk =
      { costOverrunRisk :=
          clamp01 (((seed % 100 : ℕ) : ℚ) / 100 * 0.7 + if seed % 4 != 0 then 0 else 0.2)
        delayRisk :=
          clamp01 (((seed % 100 : ℕ) : ℚ) / 100 * 0.6 + if seed % 7 != 0 then 0 else 0.25)
        implementationRisk :=
          clamp01 (((seed % 100 : ℕ) : ℚ) / 100 * 0.5 + if seed % 6 != 0 then 0 else 0.2) } :=
  rfl

theorem resultFromSeed_impact (seed : ℕ) :
    (resultFromSeed seed).scores.impactSustainability =
      ((jsRound ((1 - ((resultFromSeed seed).risk.costOverrunRisk +
        (resultFromSeed seed).risk.delayRisk +
        (resultFromSeed seed).risk.implementationRisk) / 3) * 20) : ℤ) : ℚ) := rfl

theorem resultFromSeed_total (seed : ℕ) :
    (resultFromSeed seed).scores.total =
      max 0 (min 100 ((resultFromSeed seed).scores.completeness +
        (resultFromSeed seed).scores.compliance +
        (resultFromSeed seed).scores.technicalQuality +
        (resultFromSeed seed).scores.impactSustainability)) := rfl

theorem completeness_bounds (seed : ℕ) :
    0 ≤ (resultFromSeed seed).scores.completeness ∧
      (resultFromSeed seed).scores.completeness ≤ 30 ∧
      20 ≤ (resultFromSeed seed).scores.completeness := by
  rw [resultFromSeed_completeness]
  cases h : (seed % 7 != 0 : Bool) <;>
    refine ⟨?_, ?_, ?_⟩ <;> norm_num [score, jsRound]

theorem compliance_bounds (seed : ℕ) :
    0 ≤ (resultFromSeed seed).scores.compliance ∧
      (resultFromSeed seed).scores.compliance ≤ 25 := by
  rw [resultFromSeed_compliance]
  cases h3 : (seed % 3 != 0 : Bool) <;> cases h4 : (seed % 4 != 0 : Bool) <;>
    cases h8 : (seed % 8 != 0 : Bool) <;>
      refine ⟨?_, ?_⟩ <;> norm_num [score, jsRound]

theorem technicalQuality_bounds (seed : ℕ) :
    0 ≤ (resultFromSeed seed).scores.technicalQuality ∧
      (resultFromSeed seed).scores.technicalQuality ≤ 25 ∧
      13 ≤ (resultFromSeed seed).scores.technicalQuality := by
  rw [resultFromSeed_technicalQuality]
  cases h : (seed % 6 != 0 : Bool) <;>
    refine ⟨?_, ?_, ?_⟩ <;> norm_num [score, jsRound]

theorem risk_bounds (seed : ℕ) :
    (0 ≤ (resultFromSeed seed).risk.costOverrunRisk ∧
      (resultFromSeed seed).risk.costOverrunRisk ≤ 1) ∧
    (0 ≤ (resultFromSeed seed).risk.delayRisk ∧
      (resultFromSeed seed).risk.delayRisk ≤ 1) ∧
    (0 ≤ (resultFromSeed seed).risk.implementationRisk ∧
      (resultFromSeed seed).risk.implementationRisk ≤ 1) := by
  rw [resultFromSeed_risk]
  exact ⟨⟨clamp01_nonneg _, clamp01_le_one _⟩, ⟨clamp01_nonneg _, clamp01_le_one _⟩,
    ⟨clamp01_nonneg _, clamp01_le_one _⟩⟩

theorem impact_bounds (seed : ℕ) :
    0 ≤ (resultFromSeed seed).scores.impactSustainability ∧
      (resultFromSeed seed).scores.impactSustainability ≤ 20 := by
  obtain ⟨⟨h1, h1'⟩, ⟨h2, h2'⟩, ⟨h3, h3'⟩⟩ := risk_bounds seed
  rw [resultFromSeed_impact]
  constructor
  · exact_mod_cast jsRound_nonneg (by linarith)
  · exact_mod_cast jsRound_le (m := 20) (by push_cast; linarith)

/-- Rank of a grade tier, `Poor < Fair < Good < Excellent`. -/
def gradeRank : Grade → ℕ
  | .Poor => 0
  | .Fair => 1
  | .Good => 2
  | .Excellent => 3

/-! ### Claim theorems -/

/-- C2: `processDocument` called twice with the same `uploadId` and the same
declared `language` returns identical `ProcessingResult` values — the same
validation booleans, scores and grade, eligibility and flags, risk
probabilities and recommendation list — regardless of the module state
(`dprs`, `resultsMap`) at the time of each call. -/
theorem processDocument_deterministic (p q : Params) (st1 st2 : ApiState)
    (hid : p.uploadId = q.uploadId) (hlang : p.language = q.language) :
    (processDocument p st1).2 = (processDocument q st2).2 := by
  cases p
  cases q
  cases hid
  cases hlang
  rfl

/-- Witness for C2 at a concrete input: `uploadId = "d"`, `language = "EN"`
(code units), called once on the empty state and once on a state already
holding a document. -/
theorem processDocument_deterministic_witness :
    (Params.mk [100] [69, 78]).uploadId = (Params.mk [100] [69, 78]).uploadId ∧
    (Params.mk [100] [69, 78]).language = (Params.mk [100] [69, 78]).language ∧
    (processDocument (Params.mk [100] [69, 78]) (ApiState.mk [] [])).2 =
      (processDocument (Params.mk [100] [69, 78])
        (ApiState.mk [DPRFile.mk [100] "a.pdf" "t" [69, 78] "uploaded" 3] [])).2 :=
  ⟨rfl, rfl,
    processDocument_deterministic (Params.mk [100] [69, 78]) (Params.mk [100] [69, 78])
      (ApiState.mk [] [])
      (ApiState.mk [DPRFile.mk [100] "a.pdf" "t" [69, 78] "uploaded" 3] []) rfl rfl⟩

/-- C4: every sub-score lies between 0 and its maximum (completeness ≤ 30,
compliance ≤ 25, technicalQuality ≤ 25, impactSustainability ≤ 20), and the
total is the raw sum of the four sub-scores clamped into `[0, 100]`, hence
itself in `[0, 100]`. -/
theorem scores_bounded (p : Params) (st : ApiState) :
    (0 ≤ ((processDocument p st).2).scores.completeness ∧
      ((processDocument p st).2).scores.completeness ≤ 30) ∧
    (0 ≤ ((processDocument p st).2).scores.compliance ∧
      ((processDocument p st).2).scores.compliance ≤ 25) ∧
    (0 ≤ ((processDocument p st).2).scores.technicalQuality ∧
      ((processDocument p st).2).scores.technicalQuality ≤ 25) ∧
    (0 ≤ ((processDocument p st).2).scores.impactSustainability ∧
      ((processDocument p st).2).scores.impactSustainability ≤ 20) ∧
    ((processDocument p st).2).scores.total =
      max 0 (min 100 (((processDocument p st).2).scores.completeness +
        ((processDocument p st).2).scores.compliance +
        ((processDocument p st).2).scores.technicalQuality +
        ((processDocument p st).2).scores.impactSustainability)) ∧
    (0 ≤ ((processDocument p st).2).scores.total ∧
      ((processDocument p st).2).scores.total ≤ 100) := by
  rw [processDocument_snd]
  obtain ⟨h1, h2, _⟩ := completeness_bounds (hash (p.uploadId ++ p.language))
  obtain ⟨h3, h4⟩ := compliance_bounds (hash (p.uploadId ++ p.language))
  obtain ⟨h5, h6, _⟩ := technicalQuality_bounds (hash (p.uploadId ++ p.language))
  obtain ⟨h7, h8⟩ := impact_bounds (hash (p.uploadId ++ p.language))
  refine ⟨⟨h1, h2⟩, ⟨h3, h4⟩, ⟨h5, h6⟩, ⟨h7, h8⟩,
    resultFromSeed_total (hash (p.uploadId ++ p.language)), ?_, ?_⟩
  · rw [resultFromSeed_total]
    exact le_max_left 0 _
  · rw [resultFromSeed_total]
    exact max_le (by norm_num) (min_le_left 100 _)

/-- C5: grade breakpoints are inclusive on the lower bound over the percentage
of `max_total = 100`: `≥ 90 → Excellent`, `≥ 75 → Good`, `≥ 60 → Fair`, else
`Poor`; a total of exactly 90 % of the maximum is `Excellent`; and the grade in
every `processDocument` result is exactly this function of its total. -/
theorem grade_breakpoints (t : ℚ) :
    (gradeOf t = Grade.Excellent ↔ 90 ≤ t) ∧
    (gradeOf t = Grade.Good ↔ 75 ≤ t ∧ t < 90) ∧
    (gradeOf t = Grade.Fair ↔ 60 ≤ t ∧ t < 75) ∧
    (gradeOf t = Grade.Poor ↔ t < 60) ∧
    gradeOf (90 / 100 * 100) = Grade.Excellent ∧
    ∀ (p : Params) (st : ApiState),
      ((processDocument p st).2).scores.grade =
        gradeOf ((processDocument p st).2).scores.total := by
  refine ⟨?_, ?_, ?_, ?_, by norm_num [gradeOf], fun p st => rfl⟩ <;>
    unfold gradeOf <;> split_ifs with h1 h2 h3 <;>
      simp_all <;> intros <;> linarith

/-- C6: grading is monotone — a strictly larger total at the same
`max_total = 100` never receives a worse tier in the order
`Excellent > Good > Fair > Poor`. -/
theorem grade_monotone (t1 t2 : ℚ) (h : t2 < t1) :
    gradeRank (gradeOf t2) ≤ gradeRank (gradeOf t1) := by
  unfold gradeOf
  split_ifs <;> simp [gradeRank] <;> linarith

/-- Witness for C6 at the concrete totals 95 and 50. -/
theorem grade_monotone_witness :
    (50 : ℚ) < 95 ∧ gradeRank (gradeOf 50) ≤ gradeRank (gradeOf 95) :=
  ⟨by norm_num, grade_monotone 95 50 (by norm_num)⟩

/-- C8: in every result, `eligibility.outOfRange` is the logical negation of
`eligibility.sizeCheckOk` — it is derived, never set independently. -/
theorem outOfRange_derived (p : Params) (st : ApiState) :
    ((processDocument p st).2).eligibility.outOfRange =
      !((processDocument p st).2).eligibility.sizeCheckOk := rfl

/-- C10: the four validation checks `geoCoordinates`, `kpisPresent`,
`sorBasis` and `nonDuplication` are hardcoded `true` in every result, so the
completeness sub-score is always at least 20 of 30 and the technicalQuality
sub-score at least 13 of 25. -/
theorem hardcoded_checks (p : Params) (st : ApiState) :
    ((processDocument p st).2).validation.projectProfile.geoCoordinates = true ∧
    ((processDocument p st).2).validation.beneficiary.kpisPresent = true ∧
    ((processDocument p st).2).validation.technical.sorBasis = true ∧
    ((processDocument p st).2).validation.certificates.nonDuplication = true ∧
    20 ≤ ((processDocument p st).2).scores.completeness ∧
    13 ≤ ((processDocument p st).2).scores.technicalQuality := by
  rw [processDocument_snd]
  exact ⟨rfl, rfl, rfl, rfl, (completeness_bounds _).2.2, (technicalQuality_bounds _).2.2⟩

/-- C7: each of the three risk probabilities is
`clamp01(base_risk * weight + penalty)`: `base_risk` is derived from the stable
hash of the document identifier concatenated with the declared language,
the weights are 0.7 (cost overrun), 0.6 (delay) and 0.5 (implementation), the
additive penalty (0.2, 0.25, 0.2 respectively) applies exactly when the
corresponding evidence (O&M plan, timeline realism, GatiShakti alignment) is
absent, and every risk value lies in `[0, 1]`. -/
theorem risk_formula (p : Params) (st : ApiState) :
    (((processDocument p st).2).risk.costOverrunRisk =
      clamp01 (((hash (p.uploadId ++ p.language) % 100 : ℕ) : ℚ) / 100 * 0.7 +
        if ((processDocument p st).2).validation.financial.omFourYears then 0 else 0.2)) ∧
    (((processDocument p st).2).risk.delayRisk =
      clamp01 (((hash (p.uploadId ++ p.language) % 100 : ℕ) : ℚ) / 100 * 0.6 +
        if ((processDocument p st).2).validation.projectProfile.timeline then 0 else 0.25)) ∧
    (((processDocument p st).2).risk.implementationRisk =
      clamp01 (((hash (p.uploadId ++ p.language) % 100 : ℕ) : ℚ) / 100 * 0.5 +
        if ((processDocument p st).2).validation.technical.gatiShaktiAligned then 0
        else 0.2)) ∧
    (0 ≤ ((processDocument p st).2).risk.costOverrunRisk ∧
      ((processDocument p st).2).risk.costOverrunRisk ≤ 1) ∧
    (0 ≤ ((processDocument p st).2).risk.delayRisk ∧
      ((processDocument p st).2).risk.delayRisk ≤ 1) ∧
    (0 ≤ ((processDocument p st).2).risk.implementationRisk ∧
      ((processDocument p st).2).risk.implementationRisk ≤ 1) := by
  rw [processDocument_snd]
  exact ⟨rfl, rfl, rfl, (risk_bounds _).1, (risk_bounds _).2.1, (risk_bounds _).2.2⟩

/-- C3 counterexample: on an empty check list the scorer does not return 0 —
the JavaScript division `0 / 0` yields `NaN` (modelled as `none`), so
`score [] 30` is `NaN`, not `0`. -/
theorem score_empty_nan : score [] 30 = none ∧ score [] 30 ≠ some 0 := by
  exact ⟨rfl, by simp [score]⟩

/-- C3 amended: the boolean-evidence scorer computes
`round(max_score * (count_true / count_total))` whenever the check list is
non-empty, with Completeness drawing from 3 checks with max 30 and Compliance
from 4 checks with max 25; but on an empty check list (`count_total == 0`) the
division `0 / 0` yields `NaN` — the scorer has no zero-guard and does not
return 0.  The pipeline never hits this case, since every check list it passes
is non-empty. -/
theorem score_algorithm (flags : List Bool) (outOf : ℚ) (h : flags.length ≠ 0) :
    score flags outOf =
      some ((jsRound ((flags.foldl (fun acc f => acc + if f then 1 else 0) 0 : ℕ) /
        (flags.length : ℚ) * outOf) : ℤ) : ℚ) ∧
    score [] outOf = none ∧
    ∀ (p : Params) (st : ApiState),
      ((processDocument p st).2).scores.completeness =
        (score [true, hash (p.uploadId ++ p.language) % 7 != 0, true] 30).getD 0 ∧
      ((processDocument p st).2).scores.compliance =
        (score [hash (p.uploadId ++ p.language) % 3 != 0,
          hash (p.uploadId ++ p.language) % 4 != 0, true,
          hash (p.uploadId ++ p.language) % 8 != 0] 25).getD 0 := by
  exact ⟨by simp [score, h], by simp [score], fun p st => ⟨rfl, rfl⟩⟩

/-- Witness for C3's amended theorem at the concrete check list
`[true, false]` with max score 30. -/
theorem score_algorithm_witness :
    ([true, false] : List Bool).length ≠ 0 ∧
    (score [true, false] 30 =
      some ((jsRound ((([true, false] : List Bool).foldl
          (fun acc f => acc + if f then 1 else 0) 0 : ℕ) /
        (([true, false] : List Bool).length : ℚ) * 30) : ℤ) : ℚ) ∧
    score [] 30 = none ∧
    ∀ (p : Params) (st : ApiState),
      ((processDocument p st).2).scores.completeness =
        (score [true, hash (p.uploadId ++ p.language) % 7 != 0, true] 30).getD 0 ∧
      ((processDocument p st).2).scores.compliance =
        (score [hash (p.uploadId ++ p.language) % 3 != 0,
          hash (p.uploadId ++ p.language) % 4 != 0, true,
          hash (p.uploadId ++ p.language) % 8 != 0] 25).getD 0) :=
  ⟨by decide, score_algorithm [true, false] 30 (by decide)⟩

/-- The recommendation engine as the specification words it: a fixed ordered
list of `(predicate, message)` rules.  Written from the spec for comparison
with the source's `buildRecommendations`. -/
def specRecommendationRules (scores : Scores) (flags : ConsistencyFlags)
    (risk : RiskPrediction) : List (Bool × String) :=
  [(flags.budgetMismatch,
      "Review budget allocations to resolve mismatches against scope."),
    (flags.timelineIssues,
      "Adjust project timeline to reflect realistic milestones."),
    (flags.missingData,
      "Provide missing documentation and KPI evidence."),
    (decide (risk.delayRisk > 0.5),
      "Increase monitoring cadence and add buffer for critical path items."),
    (decide (scores.compliance < 20),
      "Ensure GST, O&M, and certificates are fully documented."),
    (decide (scores.technicalQuality < 18),
      "Align design with GatiShakti and SOR standards.")]

/-- C9: `buildRecommendations` emits, in the fixed order budget → timeline →
missing data → delay-risk → compliance → technical quality, one message per
rule whose predicate holds; when zero rules fire it emits exactly the one
fallback message; its output always has length at least 1; and the
recommendations of every `processDocument` result are exactly its output on
that result's scores, flags and risk. -/
theorem buildRecommendations_eq_rules (scores : Scores) (flags : ConsistencyFlags)
    (risk : RiskPrediction) :
    buildRecommendations scores flags risk =
      if ((specRecommendationRules scores flags risk).filter (fun r => r.1)).isEmpty then
        ["Project is in strong shape. Proceed to approval with standard oversight."]
      else ((specRecommendationRules scores flags risk).filter (fun r => r.1)).map
        (fun r => r.2) := by
  cases hb : flags.budgetMismatch <;> cases hti : flags.timelineIssues <;>
    cases hm : flags.missingData <;>
    by_cases hd : risk.delayRisk > 0.5 <;>
    by_cases hc : scores.compliance < 20 <;>
    by_cases ht : scores.technicalQuality < 18 <;>
    simp [buildRecommendations, specRecommendationRules, hb, hti, hm, hd, hc, ht]

theorem processDocument_recommendations (p : Params) (st : ApiState) :
    ((processDocument p st).2).recommendations =
      buildRecommendations ((processDocument p st).2).scores
        ((processDocument p st).2).flags ((processDocument p st).2).risk := rfl

/-- C9: `buildRecommendations` emits, in the fixed order budget → timeline →
missing data → delay-risk → compliance → technical quality, one message per
rule whose predicate holds; when zero rules fire it emits exactly the one
fallback message; its output always has length at least 1; and the
recommendations of every `processDocument` result are exactly its output on
that result's scores, flags and risk. -/
theorem recommendations_rule_ordered (scores : Scores) (flags : ConsistencyFlags)
    (risk : RiskPrediction) :
    (buildRecommendations scores flags risk =
      if ((specRecommendationRules scores flags risk).filter (fun r => r.1)).isEmpty then
        ["Project is in strong shape. Proceed to approval with standard oversight."]
      else ((specRecommendationRules scores flags risk).filter (fun r => r.1)).map
        (fun r => r.2)) ∧
    1 ≤ (buildRecommendations scores flags risk).length ∧
    ∀ (p : Params) (st : ApiState),
      ((processDocument p st).2).recommendations =
        buildRecommendations ((processDocument p st).2).scores
          ((processDocument p st).2).flags ((processDocument p st).2).risk := by
  refine ⟨buildRecommendations_eq_rules scores flags risk, ?_,
    processDocument_recommendations⟩
  rw [buildRecommendations_eq_rules scores flags risk]
  by_cases hemp : ((specRecommendationRules scores flags risk).filter (fun r => r.1)).isEmpty
  · simp [hemp]
  · rw [if_neg hemp, List.length_map]
    rcases hl : (specRecommendationRules scores flags risk).filter (fun r => r.1) with _ | ⟨a, l⟩
    · rw [hl] at hemp
      simp at hemp
    · rw [hl, List.length_cons]
      exact Nat.succ_le_succ (Nat.zero_le _)

end SIH2
